import Mathlib

/-!
Shallow embedding of `src/hr_monitor_bridge.py` (class `HeartRateMonitorBridge`):
the ANT+ frame decode callback, the shared heart-rate state, the BLE
Heart Rate Measurement encoder, and one iteration of the broadcast loop.
Bytes are modelled as `Nat` (frame well-formedness `≤ 255` is carried as a
hypothesis where it matters); `Option`/explicit outcome constructors model
Python exceptions.
-/

namespace HRMBridge

/-- The shared mutable state of the bridge: the fields `current_heart_rate`
and `last_heart_rate_time` set in `HeartRateMonitorBridge.__init__`
(timestamps modelled as `Nat`). -/
structure BridgeState where
  current_heart_rate : Nat
  last_heart_rate_time : Nat
deriving Repr, DecidableEq

/-- The state right after `__init__`: `current_heart_rate = 0`,
`last_heart_rate_time = 0`. -/
def initState : BridgeState := { current_heart_rate := 0, last_heart_rate_time := 0 }

/-- `DEVICE_TYPE = 120` in `setup_ant_node`. -/
def DEVICE_TYPE : Nat := 120

/-- `TRANSMISSION_TYPE = 0` in `setup_ant_node`. -/
def TRANSMISSION_TYPE : Nat := 0

/-- The assignment `self.ant_device_id = 22184` in `__init__`: the stored
device id as a function of the constructor argument `ant_device_id`. -/
def init_ant_device_id (ant_device_id : Int) : Int := 22184

/-- The argument triple of the call
`self.hrm_channel.set_id(self.ant_device_id, DEVICE_TYPE, TRANSMISSION_TYPE)`
in `setup_ant_node`, as a function of the constructor argument. -/
def setup_set_id_args (ant_device_id : Int) : Int × Nat × Nat :=
  (init_ant_device_id ant_device_id, DEVICE_TYPE, TRANSMISSION_TYPE)

/-- `on_ant_broadcast(self, data)`: decode callback for inbound ANT+ frames.
`data` is the raw byte sequence, `now` the value of `time.time()` at the
observation. Returns `none` for a raised exception: indexing `data[1]` is
modelled by `data.get? 1`, whose `none` case is Python's `IndexError`
(unreachable under the length guard). -/
def on_ant_broadcast (data : List Nat) (now : Nat) (s : BridgeState) : Option BridgeState :=
  if 5 ≤ data.length then
    match data.get? 1 with
    | none => none
    | some heart_rate =>
      if heart_rate ≠ 0 then
        some { current_heart_rate := heart_rate, last_heart_rate_time := now }
      else
        some s
  else
    some s

/-- `struct.pack('<BB', a, b)`: two unsigned bytes, little-endian (order is
irrelevant for single bytes); `none` models the `struct.error` raised when a
value does not fit in an unsigned byte. -/
def struct_pack_BB (a b : Nat) : Option (List Nat) :=
  if a ≤ 255 ∧ b ≤ 255 then some [a, b] else none

/-- The encoder fragment of `broadcast_loop`: `flags = 0x00` followed by
`struct.pack('<BB', flags, self.current_heart_rate)`. -/
def encode_measurement (s : BridgeState) : Option (List Nat) :=
  struct_pack_BB 0x00 s.current_heart_rate

/-- Modelled from the spec: a BLE client decoding the 2-byte Heart Rate
Measurement frame (byte 0 = flags, whose bit 0 = 0 selects UINT8 value
format; byte 1 = heart rate in BPM). No client code exists in the
repository; this follows the wire-format sentence of the spec. -/
def ble_client_decode (frame : List Nat) : Option Nat :=
  match frame with
  | [flags, v] => if flags % 2 = 0 then some v else none
  | _ => none

/-- Observable outcome of one iteration of the `while True` body of
`broadcast_loop`. `pushErrorLogged` is the `except` branch (exception caught
and logged, loop continues); `packException` is a `struct.error` escaping
the loop (the `struct.pack` call sits outside the `try` block). -/
inductive TickOutcome where
  | skipped : TickOutcome
  | pushed : List Nat → TickOutcome
  | pushErrorLogged : List Nat → TickOutcome
  | packException : TickOutcome
deriving Repr, DecidableEq

/-- One iteration of the `while True` body of `broadcast_loop`.
`pushSucceeds` models whether the assignment `hr_measurement_char.value =
hr_data` raises a transport exception. Returns the state after the
iteration together with the observable outcome. -/
def broadcast_loop_step (pushSucceeds : Bool) (s : BridgeState) : BridgeState × TickOutcome :=
  if 0 < s.current_heart_rate then
    match encode_measurement s with
    | none => (s, TickOutcome.packException)
    | some hr_data =>
      if pushSucceeds then (s, TickOutcome.pushed hr_data)
      else (s, TickOutcome.pushErrorLogged hr_data)
  else
    (s, TickOutcome.skipped)

/-- Event sequences of the bridge: `Steps s t` holds when state `t` arises
from state `s` by some interleaving of decode callbacks (over byte-valued
frames) and broadcast-loop iterations. -/
inductive Steps (s : BridgeState) : BridgeState → Prop where
  | refl : Steps s s
  | decode {t u : BridgeState} (data : List Nat) (now : Nat) :
      Steps s t → (∀ b ∈ data, b ≤ 255) →
      on_ant_broadcast data now t = some u → Steps s u
  | tick {t : BridgeState} (pushSucceeds : Bool) :
      Steps s t → Steps s (broadcast_loop_step pushSucceeds t).1

/-- States reachable from the initial state. -/
def Reachable (s : BridgeState) : Prop := Steps initState s

/- ### Helper lemmas -/

/-- A broadcast-loop iteration never mutates the shared state. -/
theorem broadcast_loop_step_fst (pushSucceeds : Bool) (s : BridgeState) :
    (broadcast_loop_step pushSucceeds s).1 = s := by
  unfold broadcast_loop_step
  split
  · split
    · rfl
    · split <;> rfl
  · rfl

/-- Characterization of the decode callback on frames long enough to pass
the length guard. -/
theorem on_ant_broadcast_char (data : List Nat) (now : Nat) (s : BridgeState) (v : Nat)
    (hlen : 5 ≤ data.length) (hv : data.get? 1 = some v) :
    on_ant_broadcast data now s =
      some (if v ≠ 0 then { current_heart_rate := v, last_heart_rate_time := now } else s) := by
  unfold on_ant_broadcast
  rw [if_pos hlen, hv]
  split
  next heq => exact Option.noConfusion heq
  next hr heq =>
    injection heq with h
    subst h
    by_cases hz : v ≠ 0
    · rw [if_pos hz, if_pos hz]
    · rw [if_neg hz, if_neg hz]

/-- Any successful decode either leaves the state unchanged or stores
byte 1 of the frame together with the observation time. -/
theorem on_ant_broadcast_cases (data : List Nat) (now : Nat) (s s' : BridgeState)
    (h : on_ant_broadcast data now s = some s') :
    s' = s ∨ ∃ v, data.get? 1 = some v ∧ v ≠ 0 ∧
      s' = { current_heart_rate := v, last_heart_rate_time := now } := by
  by_cases hlen : 5 ≤ data.length
  · have h1 : 1 < data.length := by omega
    obtain ⟨v, hv⟩ : ∃ v, data.get? 1 = some v := ⟨_, List.get?_eq_get h1⟩
    rw [on_ant_broadcast_char data now s v hlen hv] at h
    by_cases hz : v ≠ 0
    · rw [if_pos hz] at h
      injection h with h
      exact Or.inr ⟨v, hv, hz, h.symm⟩
    · rw [if_neg hz] at h
      injection h with h
      exact Or.inl h.symm
  · unfold on_ant_broadcast at h
    rw [if_neg hlen] at h
    injection h with h
    exact Or.inl h.symm

/-- Along any event sequence, a nonzero byte-bounded heart rate stays
nonzero and byte-bounded. -/
theorem steps_preserve_nonzero (s t : BridgeState) (hsteps : Steps s t)
    (hnz : s.current_heart_rate ≠ 0) (h255 : s.current_heart_rate ≤ 255) :
    t.current_heart_rate ≠ 0 ∧ t.current_heart_rate ≤ 255 := by
  induction hsteps with
  | refl => exact ⟨hnz, h255⟩
  | decode data now hst hbytes hdec ih =>
    rcases on_ant_broadcast_cases _ _ _ _ hdec with heq | ⟨v, hg, hvz, heq⟩
    · rw [heq]; exact ih
    · subst heq
      have hmem : v ∈ data := List.get?_mem hg
      exact ⟨hvz, hbytes v hmem⟩
  | tick pushSucceeds hst ih =>
    rw [broadcast_loop_step_fst]; exact ih

/-- Along any event sequence from a byte-bounded state, the heart rate
stays byte-bounded. -/
theorem steps_preserve_le (s t : BridgeState) (hsteps : Steps s t)
    (h255 : s.current_heart_rate ≤ 255) : t.current_heart_rate ≤ 255 := by
  induction hsteps with
  | refl => exact h255
  | decode data now hst hbytes hdec ih =>
    rcases on_ant_broadcast_cases _ _ _ _ hdec with heq | ⟨v, hg, hvz, heq⟩
    · rw [heq]; exact ih
    · subst heq
      exact hbytes v (List.get?_mem hg)
  | tick pushSucceeds hst ih =>
    rw [broadcast_loop_step_fst]; exact ih

/-- A broadcast-loop iteration over a state with zero heart rate skips. -/
theorem broadcast_loop_step_zero (b : Bool) (s : BridgeState)
    (hz : s.current_heart_rate = 0) :
    broadcast_loop_step b s = (s, TickOutcome.skipped) := by
  unfold broadcast_loop_step
  rw [if_neg (by omega)]

/-- A broadcast-loop iteration over a state with positive byte-bounded heart
rate pushes `[0x00, hr]`, or logs a caught error when the push fails. -/
theorem broadcast_loop_step_pos (b : Bool) (s : BridgeState)
    (hpos : 0 < s.current_heart_rate) (h255 : s.current_heart_rate ≤ 255) :
    broadcast_loop_step b s =
      (s, if b then TickOutcome.pushed [0x00, s.current_heart_rate]
          else TickOutcome.pushErrorLogged [0x00, s.current_heart_rate]) := by
  unfold broadcast_loop_step encode_measurement struct_pack_BB
  rw [if_pos hpos, if_pos ⟨by omega, h255⟩]
  cases b <;> rfl

/- ### Claims -/

/-- Claim C1 is refuted by the code: the constructor ignores its
`ant_device_id` argument and stores the hard-wired value 22184 (contradicting
its own docstring and the device id `12345` that `main()` passes), so the
`set_id` call is issued with device id 22184 — not the supplied `d` — though
device type 120 and transmission type 0 are as claimed. -/
theorem C1_device_id_hardwired :
    setup_set_id_args 12345 = (22184, 120, 0) ∧ init_ant_device_id 12345 ≠ 12345 :=
  ⟨rfl, by decide⟩

/-- Claim C2: for every inbound frame of length ≥ 5 whose byte 1 equals `v`
with 1 ≤ v ≤ 255, the decode callback succeeds and the resulting state has
`current_heart_rate = v` and its timestamp set to the observation time, so
the timestamp does not decrease when the observation time is not earlier
than the stored one. -/
theorem C2_valid_frame_updates (data : List Nat) (v now : Nat) (s : BridgeState)
    (hlen : 5 ≤ data.length) (hv : data.get? 1 = some v) (h1 : 1 ≤ v) (h255 : v ≤ 255) :
    ∃ s', on_ant_broadcast data now s = some s' ∧
      s'.current_heart_rate = v ∧ s'.last_heart_rate_time = now ∧
      (s.last_heart_rate_time ≤ now → s.last_heart_rate_time ≤ s'.last_heart_rate_time) := by
  refine ⟨{ current_heart_rate := v, last_heart_rate_time := now }, ?_, rfl, rfl, fun h => h⟩
  rw [on_ant_broadcast_char data now s v hlen hv, if_pos (by omega : v ≠ 0)]

/-- Witness for C2 at the 5-byte frame [6, 72, 0, 0, 0] and initial state. -/
theorem C2_witness :
    ∃ s', on_ant_broadcast [6, 72, 0, 0, 0] 5 initState = some s' ∧
      s'.current_heart_rate = 72 ∧ s'.last_heart_rate_time = 5 ∧
      (initState.last_heart_rate_time ≤ 5 →
        initState.last_heart_rate_time ≤ s'.last_heart_rate_time) :=
  C2_valid_frame_updates [6, 72, 0, 0, 0] 72 5 initState (by decide) (by decide)
    (by decide) (by decide)

/-- Claim C3: every inbound frame of length < 5, and every frame of length
≥ 5 whose byte 1 is 0, leaves the state exactly as it was and raises no
exception (the callback returns `some` of the unchanged state). -/
theorem C3_invalid_frame_no_change (data : List Nat) (now : Nat) (s : BridgeState)
    (h : data.length < 5 ∨ data.get? 1 = some 0) :
    on_ant_broadcast data now s = some s := by
  rcases h with hshort | hzero
  · unfold on_ant_broadcast
    rw [if_neg (by omega)]
  · by_cases hlen : 5 ≤ data.length
    · rw [on_ant_broadcast_char data now s 0 hlen hzero]
      simp
    · unfold on_ant_broadcast
      rw [if_neg hlen]

/-- Witness for C3 at the 3-byte frame [1, 2, 3] (Scenario 5 of the spec). -/
theorem C3_witness :
    on_ant_broadcast [1, 2, 3] 9 { current_heart_rate := 72, last_heart_rate_time := 4 } =
      some { current_heart_rate := 72, last_heart_rate_time := 4 } :=
  C3_invalid_frame_no_change [1, 2, 3] 9 _ (Or.inl (by decide))

/-- Claim C4: for any state whose `current_heart_rate` is `v` with
1 ≤ v ≤ 255, the encoder emits exactly the two bytes [0x00, v], and a BLE
client decoding those two bytes recovers `v`. -/
theorem C4_encode_roundtrip (s : BridgeState) (v : Nat)
    (hs : s.current_heart_rate = v) (h1 : 1 ≤ v) (h255 : v ≤ 255) :
    encode_measurement s = some [0x00, v] ∧ ble_client_decode [0x00, v] = some v := by
  constructor
  · unfold encode_measurement struct_pack_BB
    rw [hs, if_pos ⟨by omega, h255⟩]
  · rfl

/-- Witness for C4 at v = 72. -/
theorem C4_witness :
    encode_measurement { current_heart_rate := 72, last_heart_rate_time := 0 } =
      some [0x00, 72] ∧ ble_client_decode [0x00, 72] = some 72 :=
  C4_encode_roundtrip _ 72 rfl (by decide) (by decide)

/-- Claim C5: on a broadcast tick, a frame is pushed if and only if
`current_heart_rate` is nonzero: a zero heart rate skips the tick, a
positive one pushes the encoded frame. -/
theorem C5_push_iff_nonzero (s : BridgeState) (h255 : s.current_heart_rate ≤ 255) :
    ((∃ f, (broadcast_loop_step true s).2 = TickOutcome.pushed f) ↔
        s.current_heart_rate ≠ 0) ∧
    (s.current_heart_rate = 0 → (broadcast_loop_step true s).2 = TickOutcome.skipped) ∧
    (s.current_heart_rate ≠ 0 →
      (broadcast_loop_step true s).2 = TickOutcome.pushed [0x00, s.current_heart_rate]) := by
  by_cases hz : s.current_heart_rate = 0
  · rw [broadcast_loop_step_zero true s hz]
    exact ⟨⟨fun ⟨f, hf⟩ => absurd hf (by simp), fun h => absurd hz h⟩,
      fun _ => rfl, fun h => absurd hz h⟩
  · rw [broadcast_loop_step_pos true s (Nat.pos_of_ne_zero hz) h255]
    exact ⟨⟨fun _ => hz, fun _ => ⟨_, rfl⟩⟩, fun h => absurd h hz, fun _ => rfl⟩

/-- Witness for C5 at a state with heart rate 72. -/
theorem C5_witness :
    ((∃ f, (broadcast_loop_step true
        { current_heart_rate := 72, last_heart_rate_time := 3 }).2 = TickOutcome.pushed f) ↔
      (72 : Nat) ≠ 0) ∧
    ((72 : Nat) = 0 → (broadcast_loop_step true
        { current_heart_rate := 72, last_heart_rate_time := 3 }).2 = TickOutcome.skipped) ∧
    ((72 : Nat) ≠ 0 → (broadcast_loop_step true
        { current_heart_rate := 72, last_heart_rate_time := 3 }).2 =
          TickOutcome.pushed [0x00, 72]) :=
  C5_push_iff_nonzero { current_heart_rate := 72, last_heart_rate_time := 3 } (by decide)

/-- The outcome of a broadcast-loop iteration depends only on
`current_heart_rate`; the stored timestamp is never consulted. -/
theorem broadcast_loop_step_hr_only (b : Bool) (s1 s2 : BridgeState)
    (h : s1.current_heart_rate = s2.current_heart_rate) :
    (broadcast_loop_step b s1).2 = (broadcast_loop_step b s2).2 := by
  by_cases hz : s1.current_heart_rate = 0
  · rw [broadcast_loop_step_zero b s1 hz, broadcast_loop_step_zero b s2 (h ▸ hz)]
  · by_cases h255 : s1.current_heart_rate ≤ 255
    · rw [broadcast_loop_step_pos b s1 (Nat.pos_of_ne_zero hz) h255,
        broadcast_loop_step_pos b s2 (Nat.pos_of_ne_zero (h ▸ hz)) (h ▸ h255), h]
    · have hpe : ∀ s : BridgeState, s.current_heart_rate ≠ 0 →
          ¬s.current_heart_rate ≤ 255 →
          (broadcast_loop_step b s).2 = TickOutcome.packException := by
        intro s hsz hs255
        unfold broadcast_loop_step encode_measurement struct_pack_BB
        rw [if_pos (Nat.pos_of_ne_zero hsz), if_neg (fun hc => hs255 hc.2)]
      rw [hpe s1 hz h255, hpe s2 (h ▸ hz) (h ▸ h255)]

/-- Claim C6: the driver never returns from Broadcasting to Idle — along any
event sequence from a state with a nonzero (byte-bounded) heart rate, the
heart rate stays nonzero, every tick pushes a frame, and the tick outcome is
unchanged if the recorded `last_heart_rate_time` is replaced by any value
(the timestamp is never consulted). -/
theorem C6_broadcasting_permanent (s s' : BridgeState) (pushSucceeds : Bool) (t : Nat)
    (hnz : s.current_heart_rate ≠ 0) (h255 : s.current_heart_rate ≤ 255)
    (hsteps : Steps s s') :
    s'.current_heart_rate ≠ 0 ∧
    (broadcast_loop_step true s').2 = TickOutcome.pushed [0x00, s'.current_heart_rate] ∧
    (broadcast_loop_step pushSucceeds { s' with last_heart_rate_time := t }).2 =
      (broadcast_loop_step pushSucceeds s').2 := by
  obtain ⟨hnz', h255'⟩ := steps_preserve_nonzero s s' hsteps hnz h255
  exact ⟨hnz',
    by rw [broadcast_loop_step_pos true s' (Nat.pos_of_ne_zero hnz') h255']; rfl,
    broadcast_loop_step_hr_only pushSucceeds _ _ rfl⟩

/-- Witness for C6: after a decode step from heart rate 72 to 85, the tick
still pushes and ignores a timestamp replaced by 12345. -/
theorem C6_witness :
    ({ current_heart_rate := 85, last_heart_rate_time := 9 } :
        BridgeState).current_heart_rate ≠ 0 ∧
    (broadcast_loop_step true { current_heart_rate := 85, last_heart_rate_time := 9 }).2 =
      TickOutcome.pushed [0x00,
        ({ current_heart_rate := 85, last_heart_rate_time := 9 } :
          BridgeState).current_heart_rate] ∧
    (broadcast_loop_step false
        { current_heart_rate := 85, last_heart_rate_time := 12345 }).2 =
      (broadcast_loop_step false { current_heart_rate := 85, last_heart_rate_time := 9 }).2 :=
  C6_broadcasting_permanent { current_heart_rate := 72, last_heart_rate_time := 0 }
    { current_heart_rate := 85, last_heart_rate_time := 9 } false 12345
    (by decide) (by decide)
    (Steps.decode [0, 85, 0, 0, 0] 9 Steps.refl (by decide) (by decide))

/-- Claim C7: when the BLE push raises, the iteration ends in the caught
`pushErrorLogged` outcome (not an escaping exception), the shared state is
unchanged, and the next iteration retries the push with the state it then
holds. -/
theorem C7_push_failure_caught (s : BridgeState)
    (hpos : 0 < s.current_heart_rate) (h255 : s.current_heart_rate ≤ 255) :
    (broadcast_loop_step false s).1 = s ∧
    (broadcast_loop_step false s).2 =
      TickOutcome.pushErrorLogged [0x00, s.current_heart_rate] ∧
    (broadcast_loop_step false s).2 ≠ TickOutcome.packException ∧
    (broadcast_loop_step true (broadcast_loop_step false s).1).2 =
      TickOutcome.pushed [0x00, s.current_heart_rate] := by
  rw [broadcast_loop_step_fst, broadcast_loop_step_pos false s hpos h255,
    broadcast_loop_step_pos true s hpos h255]
  exact ⟨rfl, rfl, fun h => TickOutcome.noConfusion h, rfl⟩

/-- Witness for C7 at a state with heart rate 72. -/
theorem C7_witness :
    (broadcast_loop_step false { current_heart_rate := 72, last_heart_rate_time := 3 }).1 =
      { current_heart_rate := 72, last_heart_rate_time := 3 } ∧
    (broadcast_loop_step false { current_heart_rate := 72, last_heart_rate_time := 3 }).2 =
      TickOutcome.pushErrorLogged [0x00, 72] ∧
    (broadcast_loop_step false { current_heart_rate := 72, last_heart_rate_time := 3 }).2 ≠
      TickOutcome.packException ∧
    (broadcast_loop_step true
        (broadcast_loop_step false
          { current_heart_rate := 72, last_heart_rate_time := 3 }).1).2 =
      TickOutcome.pushed [0x00, 72] :=
  C7_push_failure_caught { current_heart_rate := 72, last_heart_rate_time := 3 }
    (by decide) (by decide)

/-- Claim C8: the encoder is deterministic in `current_heart_rate` — two
states agreeing on it encode identically and produce identical tick
outcomes, and within 1–255 the common output is exactly the two bytes
[0x00, hr]. -/
theorem C8_encoder_deterministic (s1 s2 : BridgeState)
    (h : s1.current_heart_rate = s2.current_heart_rate) :
    encode_measurement s1 = encode_measurement s2 ∧
    (broadcast_loop_step true s1).2 = (broadcast_loop_step true s2).2 ∧
    (1 ≤ s1.current_heart_rate → s1.current_heart_rate ≤ 255 →
      encode_measurement s1 = some [0x00, s1.current_heart_rate] ∧
      encode_measurement s2 = some [0x00, s1.current_heart_rate]) := by
  refine ⟨?_, broadcast_loop_step_hr_only true s1 s2 h, fun h1 h255 => ⟨?_, ?_⟩⟩
  · unfold encode_measurement
    rw [h]
  · unfold encode_measurement struct_pack_BB
    rw [if_pos ⟨by omega, h255⟩]
  · unfold encode_measurement struct_pack_BB
    rw [← h, if_pos ⟨by omega, h255⟩]

/-- Witness for C8 at two states with heart rate 72 and different
timestamps. -/
theorem C8_witness :
    encode_measurement { current_heart_rate := 72, last_heart_rate_time := 1 } =
      encode_measurement { current_heart_rate := 72, last_heart_rate_time := 99 } ∧
    (broadcast_loop_step true { current_heart_rate := 72, last_heart_rate_time := 1 }).2 =
      (broadcast_loop_step true { current_heart_rate := 72, last_heart_rate_time := 99 }).2 ∧
    ((1 : Nat) ≤ 72 → (72 : Nat) ≤ 255 →
      encode_measurement { current_heart_rate := 72, last_heart_rate_time := 1 } =
        some [0x00, 72] ∧
      encode_measurement { current_heart_rate := 72, last_heart_rate_time := 99 } =
        some [0x00, 72]) :=
  C8_encoder_deterministic { current_heart_rate := 72, last_heart_rate_time := 1 }
    { current_heart_rate := 72, last_heart_rate_time := 99 } rfl

/-- Claim C9: the state invariant 0 ≤ current_heart_rate ≤ 255 holds at
creation (the heart rate starts at 0) and in every state reachable by
decode callbacks over byte-valued frames and broadcast ticks. -/
theorem C9_state_invariant (s : BridgeState) (h : Reachable s) :
    initState.current_heart_rate = 0 ∧ s.current_heart_rate ≤ 255 :=
  ⟨rfl, steps_preserve_le initState s h (by decide)⟩

/-- Witness for C9 at the state reached by decoding the frame
[6, 72, 0, 0, 0] from the initial state. -/
theorem C9_witness :
    initState.current_heart_rate = 0 ∧
    ({ current_heart_rate := 72, last_heart_rate_time := 7 } :
      BridgeState).current_heart_rate ≤ 255 :=
  C9_state_invariant { current_heart_rate := 72, last_heart_rate_time := 7 }
    (Steps.decode [6, 72, 0, 0, 0] 7 Steps.refl (by decide) (by decide))

/-- Claim C10: the decode outcome depends only on the frame length guard and
byte 1 — two frames of length ≥ 5 agreeing on byte 1 produce identical
results from any common prior state and observation time. -/
theorem C10_decode_depends_only_on_byte1 (d1 d2 : List Nat) (now : Nat) (s : BridgeState)
    (h1 : 5 ≤ d1.length) (h2 : 5 ≤ d2.length) (hb : d1.get? 1 = d2.get? 1) :
    on_ant_broadcast d1 now s = on_ant_broadcast d2 now s := by
  obtain ⟨v, hv⟩ : ∃ v, d1.get? 1 = some v := ⟨_, List.get?_eq_get (by omega)⟩
  rw [on_ant_broadcast_char d1 now s v h1 hv,
    on_ant_broadcast_char d2 now s v h2 (hb ▸ hv)]

/-- Witness for C10 at two frames differing everywhere except byte 1. -/
theorem C10_witness :
    on_ant_broadcast [0, 72, 0, 0, 0] 4 initState =
      on_ant_broadcast [255, 72, 9, 9, 9, 9] 4 initState :=
  C10_decode_depends_only_on_byte1 [0, 72, 0, 0, 0] [255, 72, 9, 9, 9, 9] 4 initState
    (by decide) (by decide) (by decide)

end HRMBridge
